import Mathlib

/-!
Verification of the core of the Bot-Detector API: the token-permission
verifier (`verify_token`) and the paginated SQL execution helper
(`execute_sql`) from `api/database/functions.py`, together with the
`verify_and_log_token` dependency of the v2 highscore router
(`src/api/v2/highscore.py`).

The Python code is embedded shallowly:
- SQL parameter dictionaries become association lists `List (String × Val)`
  with Python-dict assignment semantics (`dictSet` overwrites an existing
  key in place, otherwise appends);
- Python `int` becomes `Int`;
- raising an exception becomes returning `Except.error`;
- the database store is an abstract function from (sql text, bound
  parameters) to either a result set or a driver-level error message;
- the connection/session/engine lifecycle of `execute_sql` is recorded as
  an event trace, following Python `async with` semantics: a context
  manager's exit handler runs on both normal and exceptional exit of its
  block, while a plain statement placed after the block (such as
  `await engine.dispose()`) runs only when the block exits normally.
-/

/-- A value bound to a SQL parameter or stored in a result cell. -/
inductive Val where
  | int (i : Int)
  | str (s : String)
deriving DecidableEq, Repr

/-- A Python dict with string keys, as an association list. -/
abbrev Dict := List (String × Val)

/-- Python `d[k] = v`: overwrite the entry for `k` if present (keeping its
position, as Python dicts do), otherwise append a new entry. -/
def dictSet (d : Dict) (k : String) (v : Val) : Dict :=
  if d.any (fun p => p.1 == k) then
    d.map (fun p => if p.1 == k then (k, v) else p)
  else
    d ++ [(k, v)]

/-- Python `d.get(k)` / `d[k]` lookup. -/
def dictGet (d : Dict) (k : String) : Option Val :=
  (d.find? (fun p => p.1 == k)).map (fun p => p.2)

/-- Python whitespace characters stripped by `str.strip()`. -/
def isPyWhitespace (c : Char) : Bool :=
  c == ' ' || c == '\t' || c == '\n' || c == '\r' || c == '\x0b' || c == '\x0c'

/-- Python `s.strip()`: drop leading and trailing whitespace. -/
def pyStrip (s : String) : String :=
  ((s.toList.dropWhile isPyWhitespace).reverse.dropWhile isPyWhitespace).reverse.asString

/-- Python `s.lower()`, restricted to the ASCII case mapping; only ASCII
letters matter for comparison against the literal `"select"`. -/
def pyLower (s : String) : String :=
  (s.toList.map Char.toLower).asString

/-- Python `sql.strip().lower().startswith('select')` — the read/write classifier
at the top of `execute_sql` (`startswith` phrased as a character-list
comparison). -/
def hasReturn (sql : String) : Bool :=
  "select".toList.isPrefixOf (pyLower (pyStrip sql)).toList

/-- Source `row_count if row_count <= 100_000 else 100_000` in `execute_sql`. -/
def clampRowCount (row_count : Int) : Int :=
  if row_count ≤ 100000 then row_count else 100000

/-- Source `page if page >= 1 else 1` in `execute_sql`. -/
def clampPage (page : Int) : Int :=
  if page ≥ 1 then page else 1

/-- Source `offset = (page - 1)*row_count`, computed after both clamps. -/
def pageOffset (page row_count : Int) : Int :=
  (clampPage page - 1) * clampRowCount row_count

/-- The statement text and bound parameters `execute_sql` prepares before
touching the store: for a `select` statement the pagination clause is
appended and `offset` / `row_count` are merged into `param` (overwriting
caller-supplied entries of the same name); otherwise both are left as the
caller passed them. -/
structure ExecPrep where
  hasReturn : Bool
  sql : String
  param : Dict
deriving DecidableEq, Repr

/-- Lines 19–34 of `execute_sql`: classification, clamping, pagination
clause, and parameter merge. -/
def executePrep (sql : String) (param : Dict) (row_count page : Int) : ExecPrep :=
  if hasReturn sql then
    let rc := clampRowCount row_count
    let off := pageOffset page row_count
    { hasReturn := true
      sql := sql ++ " limit :offset, :row_count"
      param := dictSet (dictSet param "offset" (Val.int off)) "row_count" (Val.int rc) }
  else
    { hasReturn := false, sql := sql, param := param }

/-- An ordered SQL result set: column labels plus rows of cells. -/
structure ResultSet where
  cols : List String
  rows : List (List Val)
deriving DecidableEq, Repr

/-- The store boundary: executing prepared SQL with bound parameters either
yields a result set or fails with a driver-level error message. -/
structure Store where
  run : String → Dict → Except String ResultSet

/-- Lifecycle events of one `execute_sql` call. -/
inductive Ev where
  | connOpen
  | sessionOpen
  | exec
  | commit
  | sessionClose
  | connClose
  | dispose
deriving DecidableEq, Repr

/-- What one `execute_sql` call produces: the returned value (a result set
for reads, nothing for writes) or the propagated store error, the lifecycle
event trace, and the parameter mapping that was actually bound. -/
structure ExecOut where
  result : Except String (Option ResultSet)
  events : List Ev
  boundParam : Dict
deriving Repr

/-- Function `execute_sql(sql, param, ..., row_count, page)` with an explicit
parameter mapping. `async with engine.connect()` and
`async with Session()` release the connection and session on every exit of
their blocks; `await engine.dispose()` stands after both blocks, so it runs
only when `session.execute` (and commit) succeeded. On success the commit
happens and the prepared result (`sql_cursor` for reads, `None` for
writes) is returned. -/
def execute_sql (store : Store) (sql : String) (param : Dict)
    (row_count page : Int) : ExecOut :=
  match store.run (executePrep sql param row_count page).sql
      (executePrep sql param row_count page).param with
  | Except.error e =>
      { result := Except.error e
        events := [Ev.connOpen, Ev.sessionOpen, Ev.exec, Ev.sessionClose, Ev.connClose]
        boundParam := (executePrep sql param row_count page).param }
  | Except.ok rows =>
      { result := Except.ok
          (if (executePrep sql param row_count page).hasReturn then some rows else none)
        events := [Ev.connOpen, Ev.sessionOpen, Ev.exec, Ev.commit,
                   Ev.sessionClose, Ev.connClose, Ev.dispose]
        boundParam := (executePrep sql param row_count page).param }

/-- Module-level state of `functions.py`: Python evaluates the default
argument `param={}` once, at function definition time, so all calls that
omit `param` share a single dict object, and in-place mutation of it
(`param['offset'] = offset`) persists across such calls. -/
structure ModuleState where
  defaultParam : Dict
deriving DecidableEq, Repr

/-- The module state right after `def execute_sql` is evaluated. -/
def initState : ModuleState := { defaultParam := [] }

/-- One call of `execute_sql`, with `param?` either an explicit mapping or
`none` for the defaulted call. A defaulted call binds the shared default
dict; because the merge mutates that dict in place, the updated mapping is
the module state seen by the next defaulted call. -/
def execute_sql_call (st : ModuleState) (store : Store) (sql : String)
    (param? : Option Dict) (row_count page : Int) : ExecOut × ModuleState :=
  let p := param?.getD st.defaultParam
  let out := execute_sql store sql p row_count page
  (out, if param?.isSome then st else { defaultParam := out.boundParam })

/-- Errors a Python builtin can raise during result materialization:
`TypeError` (wrong argument count to a namedtuple constructor),
`ValueError` (invalid namedtuple field names), `IndexError`
(`self.rows[0]` on an empty list). -/
inductive PyErr where
  | typeError
  | valueError
  | indexError
deriving DecidableEq, Repr

/-- Characters that may start a Python identifier (ASCII case; the column
labels this code produces are ASCII). -/
def isIdentStart (c : Char) : Bool :=
  c.isAlpha || c == '_'

/-- Characters that may continue a Python identifier (ASCII case). -/
def isIdentChar (c : Char) : Bool :=
  c.isAlphanum || c == '_'

/-- Python `s.isidentifier()` over the ASCII character classes: nonempty,
an identifier-start character followed by identifier characters. -/
def isPyIdent (s : String) : Bool :=
  match s.toList with
  | [] => false
  | c :: cs => isIdentStart c && cs.all isIdentChar

/-- The Python keywords, rejected as namedtuple field names by
`_iskeyword`. -/
def pyKeywords : List String :=
  ["False", "None", "True", "and", "as", "assert", "async", "await",
   "break", "class", "continue", "def", "del", "elif", "else", "except",
   "finally", "for", "from", "global", "if", "in", "is", "lambda",
   "nonlocal", "not", "or", "pass", "raise", "return", "try", "while",
   "with", "yield", "import"]

/-- Whether a field name begins with an underscore, which `namedtuple`
rejects when `rename` is left at its default `False`. -/
def startsWithUnderscore (s : String) : Bool :=
  match s.toList with
  | '_' :: _ => true
  | _ => false

/-- Whether `namedtuple` accepts a single field name: a valid identifier
that is not a keyword and does not start with an underscore. -/
def isValidFieldName (s : String) : Bool :=
  isPyIdent s && !(pyKeywords.contains s) && !(startsWithUnderscore s)

/-- Python `namedtuple('Record', fields)` with default options: every field
name must be a valid non-keyword identifier not starting with an
underscore, and the names must be distinct; any violation raises
`ValueError` (SQL column labels such as `count(*)` fail the identifier
check). On success the field tuple is returned. -/
def namedtupleFields (fields : List String) : Except PyErr (List String) :=
  if (∀ f ∈ fields, isValidFieldName f = true) ∧ fields.Nodup then
    Except.ok fields
  else Except.error PyErr.valueError

/-- Python `Record(*vals)`: arity must match the field tuple, else `TypeError`;
a record is its fields zipped with its values. -/
def mkRecord (fields : List String) (vals : List Val) :
    Except PyErr (List (String × Val)) :=
  if vals.length = fields.length then Except.ok (List.zip fields vals)
  else Except.error PyErr.typeError

/-- Method `sql_cursor.rows2dict`: `self.rows.mappings().all()` — one column-keyed
mapping per row (column labels are taken as distinct, which the round-trip
property assumes anyway). -/
def sql_cursor_rows2dict (rs : ResultSet) : List (List (String × Val)) :=
  rs.rows.map (fun r => List.zip rs.cols r)

/-- Method `sql_cursor.rows2tuple`: build `Record = namedtuple('Record', keys)`
from the result's column labels, then construct one record per fetched
row. On a zero-row, zero-column result this succeeds with the empty list:
`namedtuple('Record', ())` is legal and the comprehension over no rows
yields `[]`. -/
def sql_cursor_rows2tuple (rs : ResultSet) :
    Except PyErr (List (List (String × Val))) := do
  let fields ← namedtupleFields rs.cols
  rs.rows.mapM (mkRecord fields)

/-- One ORM entity row held by `sqlalchemy_result`: the names of its
table's columns and its attribute mapping (`getattr`). -/
structure ModelRow where
  cols : List String
  attrs : List (String × Val)
deriving DecidableEq, Repr

/-- Python `getattr(row, name)` for a column attribute. -/
def getAttr (row : ModelRow) (name : String) : Option Val :=
  (row.attrs.find? (fun p => p.1 == name)).map (fun p => p.2)

/-- Method `sqlalchemy_result.rows2dict`:
`{col.name: getattr(row, col.name) for col in row.__table__.columns}`
per row. -/
def sqlalchemy_result_rows2dict (rows : List ModelRow) :
    List (List (String × Option Val)) :=
  rows.map (fun row => row.cols.map (fun c => (c, getAttr row c)))

/-- Python `Record(*vals)` over attribute values, arity-checked. -/
def mkRecordOpt (fields : List String) (vals : List (Option Val)) :
    Except PyErr (List (String × Option Val)) :=
  if vals.length = fields.length then Except.ok (List.zip fields vals)
  else Except.error PyErr.typeError

/-- Method `sqlalchemy_result.rows2tuple`: reads
`self.rows[0].__table__.columns` first — on an empty row list this raises
`IndexError` — then builds the namedtuple type and one record per row. -/
def sqlalchemy_result_rows2tuple (rows : List ModelRow) :
    Except PyErr (List (List (String × Option Val))) :=
  match rows with
  | [] => Except.error PyErr.indexError
  | r0 :: _ => do
      let fields ← namedtupleFields r0.cols
      rows.mapM (fun row => mkRecordOpt fields (row.cols.map (getAttr row)))

/-- Modelled from the spec: the Token record persisted by the store (its
ORM model file `api/database/models.py` is not part of the sources). §3 of
the spec: an opaque unique `token` string plus one boolean (`0`/`1`) flag
per capability — request-highscores, verify-ban, create-token,
verify-players — exactly the four attributes `verify_token` reads. -/
structure Token where
  token : String
  request_highscores : Int
  verify_ban : Int
  create_token : Int
  verify_players : Int
deriving DecidableEq, Repr

/-- The `HTTPException(status_code=..., detail=...)` raised by the code. -/
structure HttpErr where
  status_code : Nat
  detail : String
deriving DecidableEq, Repr

/-- The one error `verify_token` raises:
`HTTPException(status_code=404, detail=f"insufficient permissions: {verifcation}")`. -/
def permDenied (verifcation : String) : HttpErr :=
  { status_code := 404, detail := "insufficient permissions: " ++ verifcation }

/-- The `permissions` dict literal built inside `verify_token`, keyed by
permission name, valued by the first matching row's flag attributes. -/
def permissions (tok : Token) : List (String × Int) :=
  [("hiscore", tok.request_highscores),
   ("ban", tok.verify_ban),
   ("create_token", tok.create_token),
   ("verify_players", tok.verify_players)]

/-- Lookup `permissions.get(verifcation, 0)` — default-deny. -/
def permissionsGet (tok : Token) (verifcation : String) : Int :=
  ((permissions tok).find? (fun p => p.1 == verifcation)).map (fun p => p.2)
    |>.getD 0

/-- The permission names the registry dict knows. -/
def registryKeys : List String :=
  ["hiscore", "ban", "create_token", "verify_players"]

/-- Function `verify_token(token, verifcation)` over a database modelled as the list
of Token rows. `select(Token).where(Token.token==token)` is the filter by
exact token equality; `sqlalchemy_result` wraps the rows; the
`len(data.rows) == 0` check and the `if not player_token` check after
`rows2tuple` both deny on an empty match (the second is unreachable once
the first passes); otherwise the first row's flags feed the `permissions`
dict and `permissions.get(verifcation, 0) == 1` decides. -/
def verify_token (db : List Token) (token verifcation : String) :
    Except HttpErr Bool :=
  match db.filter (fun r => r.token == token) with
  | [] => Except.error (permDenied verifcation)
  | tok :: _ =>
      if permissionsGet tok verifcation = 1 then Except.ok true
      else Except.error (permDenied verifcation)

/-- The parameter names of `def verify_token(token, verifcation)`. -/
def verify_token_paramNames : List String := ["token", "verifcation"]

/-- The keyword-argument names used at the call site inside
`verify_and_log_token`:
`verify_token(token, verification="verify_ban", route=...)`. -/
def highscore_call_kwargNames : List String := ["verification", "route"]

/-- Python call binding: every keyword argument must name a parameter of
the callee (none of these functions takes `**kwargs`); otherwise the call
raises `TypeError` before the body runs. -/
def highscore_call_binds : Bool :=
  highscore_call_kwargNames.all (fun k => verify_token_paramNames.contains k)

/-- Function `verify_and_log_token(request, token)` from the v2 highscore router:
inside `try`, it calls `verify_token` with keyword arguments
`verification` and `route`; if that call binds, the intended permission
name is `"verify_ban"`. `except Exception` catches both a binding
`TypeError` and any `HTTPException` raised by `verify_token`, and re-raises
as HTTP 403. -/
def verify_and_log_token (db : List Token) (token : String) :
    Except HttpErr Unit :=
  let callResult : Except Unit (Except HttpErr Bool) :=
    if highscore_call_binds then
      Except.ok (verify_token db token "verify_ban")
    else
      Except.error ()
  match callResult with
  | Except.ok (Except.ok _) => Except.ok ()
  | _ => Except.error { status_code := 403,
                        detail := "Token verification failed" }

/-! ## Dictionary lemmas -/

theorem find?_map_set_other (d : Dict) (k k' : String) (v : Val) (h : k' ≠ k) :
    (d.map (fun p => if p.1 == k then (k, v) else p)).find? (fun p => p.1 == k')
      = d.find? (fun p => p.1 == k') := by
  induction d with
  | nil => rfl
  | cons p t ih =>
      simp only [List.map_cons]
      by_cases hp : p.1 = k
      · rw [if_pos (by simpa using hp)]
        rw [List.find?_cons_of_neg _ (by simpa using Ne.symm h)]
        rw [List.find?_cons_of_neg _ (by simpa [hp] using Ne.symm h)]
        exact ih
      · rw [if_neg (by simpa using hp)]
        by_cases hq : p.1 = k'
        · rw [List.find?_cons_of_pos _ (by simpa using hq)]
          rw [List.find?_cons_of_pos _ (by simpa using hq)]
        · rw [List.find?_cons_of_neg _ (by simpa using hq)]
          rw [List.find?_cons_of_neg _ (by simpa using hq)]
          exact ih

theorem find?_map_set_self (d : Dict) (k : String) (v : Val)
    (h : d.any (fun p => p.1 == k) = true) :
    (d.map (fun p => if p.1 == k then (k, v) else p)).find? (fun p => p.1 == k)
      = some (k, v) := by
  induction d with
  | nil => simp at h
  | cons p t ih =>
      simp only [List.map_cons]
      by_cases hp : p.1 = k
      · rw [if_pos (by simpa using hp)]
        rw [List.find?_cons_of_pos _ (by simp)]
      · rw [if_neg (by simpa using hp)]
        rw [List.find?_cons_of_neg _ (by simpa using hp)]
        apply ih
        simp only [List.any_cons] at h
        rcases Bool.or_eq_true_iff.mp h with h3 | h3
        · exact absurd (by simpa using h3) hp
        · exact h3

theorem find?_append_left_none (d e : Dict) (k : String)
    (h : d.any (fun p => p.1 == k) = false) :
    (d ++ e).find? (fun p => p.1 == k) = e.find? (fun p => p.1 == k) := by
  induction d with
  | nil => rfl
  | cons p t ih =>
      simp only [List.any_cons, Bool.or_eq_false_iff] at h
      rw [List.cons_append, List.find?_cons_of_neg _ (by simp [h.1])]
      exact ih h.2

/-- Setting a key makes it readable: `d[k] = v` then `d[k]` yields `v`. -/
theorem dictGet_dictSet_self (d : Dict) (k : String) (v : Val) :
    dictGet (dictSet d k v) k = some v := by
  unfold dictGet dictSet
  by_cases h : d.any (fun p => p.1 == k) = true
  · rw [if_pos h, find?_map_set_self d k v h]
    rfl
  · have h' : d.any (fun p => p.1 == k) = false := by
      revert h; cases d.any (fun p => p.1 == k) <;> simp
    rw [if_neg (by simp [h']), find?_append_left_none d _ k h']
    rw [List.find?_cons_of_pos _ (by simp)]
    rfl

/-- Setting one key leaves every other key's value unchanged. -/
theorem dictGet_dictSet_other (d : Dict) (k k' : String) (v : Val) (h : k' ≠ k) :
    dictGet (dictSet d k v) k' = dictGet d k' := by
  unfold dictGet dictSet
  by_cases hany : d.any (fun p => p.1 == k) = true
  · rw [if_pos hany, find?_map_set_other d k k' v h]
  · have h' : d.any (fun p => p.1 == k) = false := by
      revert hany; cases d.any (fun p => p.1 == k) <;> simp
    rw [if_neg (by simp [h']), List.find?_append]
    have hkv : List.find? (fun p => p.1 == k') [(k, v)] = none := by
      rw [List.find?_cons_of_neg _ (by simpa using Ne.symm h)]
      rfl
    rw [hkv]
    cases List.find? (fun p => p.1 == k') d <;> rfl

/-! ## Executor lemmas -/

theorem executePrep_read (sql : String) (param : Dict) (rc pg : Int)
    (h : hasReturn sql = true) :
    executePrep sql param rc pg =
      { hasReturn := true
        sql := sql ++ " limit :offset, :row_count"
        param := dictSet (dictSet param "offset" (Val.int (pageOffset pg rc)))
                   "row_count" (Val.int (clampRowCount rc)) } := by
  unfold executePrep
  rw [if_pos h]

theorem executePrep_write (sql : String) (param : Dict) (rc pg : Int)
    (h : hasReturn sql = false) :
    executePrep sql param rc pg =
      { hasReturn := false, sql := sql, param := param } := by
  unfold executePrep
  rw [if_neg (by simp [h])]

theorem executePrep_read_offset (sql : String) (param : Dict) (rc pg : Int)
    (h : hasReturn sql = true) :
    dictGet (executePrep sql param rc pg).param "offset"
      = some (Val.int (pageOffset pg rc)) := by
  rw [executePrep_read sql param rc pg h]
  exact (dictGet_dictSet_other _ _ _ _ (by decide)).trans
    (dictGet_dictSet_self _ _ _)

theorem executePrep_read_row_count (sql : String) (param : Dict) (rc pg : Int)
    (h : hasReturn sql = true) :
    dictGet (executePrep sql param rc pg).param "row_count"
      = some (Val.int (clampRowCount rc)) := by
  rw [executePrep_read sql param rc pg h]
  exact dictGet_dictSet_self _ _ _

theorem execute_sql_boundParam (store : Store) (sql : String) (param : Dict)
    (rc pg : Int) :
    (execute_sql store sql param rc pg).boundParam
      = (executePrep sql param rc pg).param := by
  unfold execute_sql
  cases store.run (executePrep sql param rc pg).sql (executePrep sql param rc pg).param <;> rfl

/-! ## Claims about the Query Executor -/

/-- C4: for every read execution of `execute_sql`, the bound `row_count`
parameter is the requested row limit when it is at most 100000 and exactly
100000 when it exceeds 100000, the effective page is the requested page
when at least 1 and 1 when the request is 0 or negative, and the bound
`offset` parameter equals `(effectivePage - 1) * effectiveRowLimit`. -/
theorem read_pagination_bounds (store : Store) (sql : String) (param : Dict)
    (rowLimit page : Int) (h : hasReturn sql = true) :
    dictGet (execute_sql store sql param rowLimit page).boundParam "row_count"
        = some (Val.int (clampRowCount rowLimit)) ∧
    dictGet (execute_sql store sql param rowLimit page).boundParam "offset"
        = some (Val.int ((clampPage page - 1) * clampRowCount rowLimit)) ∧
    (rowLimit ≤ 100000 → clampRowCount rowLimit = rowLimit) ∧
    (100000 < rowLimit → clampRowCount rowLimit = 100000) ∧
    (1 ≤ page → clampPage page = page) ∧
    (page ≤ 0 → clampPage page = 1) := by
  refine ⟨?_, ?_, ?_, ?_, ?_, ?_⟩
  · rw [execute_sql_boundParam]
    exact executePrep_read_row_count sql param rowLimit page h
  · rw [execute_sql_boundParam]
    exact executePrep_read_offset sql param rowLimit page h
  · intro h1
    unfold clampRowCount
    rw [if_pos h1]
  · intro h1
    unfold clampRowCount
    rw [if_neg (by omega)]
  · intro h1
    unfold clampPage
    rw [if_pos h1]
  · intro h1
    unfold clampPage
    rw [if_neg (by omega)]

/-- The abstract store used by concrete instantiations: always succeeds
with an empty result set. -/
def okStore : Store := ⟨fun _ _ => Except.ok { cols := [], rows := [] }⟩

/-- Witness for C4: the read `"select 1"` with rowLimit 200000 and page 0
binds `row_count = 100000` and `offset = 0`. -/
theorem read_pagination_bounds_witness :
    hasReturn "select 1" = true ∧
    (dictGet (execute_sql okStore "select 1" [] 200000 0).boundParam "row_count"
        = some (Val.int (clampRowCount 200000)) ∧
    dictGet (execute_sql okStore "select 1" [] 200000 0).boundParam "offset"
        = some (Val.int ((clampPage 0 - 1) * clampRowCount 200000)) ∧
    ((200000 : Int) ≤ 100000 → clampRowCount 200000 = 200000) ∧
    ((100000 : Int) < 200000 → clampRowCount 200000 = 100000) ∧
    ((1 : Int) ≤ 0 → clampPage 0 = 0) ∧
    ((0 : Int) ≤ 0 → clampPage 0 = 1)) :=
  ⟨by decide, read_pagination_bounds okStore "select 1" [] 200000 0 (by decide)⟩

/-- C5: a statement that does not start (case-insensitively, after
stripping) with `select` is executed with its text unchanged and the
caller's parameter mapping untouched, and the call returns no result
value. -/
theorem write_statement_passthrough (store : Store) (sql : String)
    (param : Dict) (rc pg : Int) (h : hasReturn sql = false) :
    (executePrep sql param rc pg).sql = sql ∧
    (executePrep sql param rc pg).param = param ∧
    (execute_sql store sql param rc pg).boundParam = param ∧
    (∀ v, (execute_sql store sql param rc pg).result = Except.ok v →
      v = none) := by
  refine ⟨?_, ?_, ?_, ?_⟩
  · rw [executePrep_write sql param rc pg h]
  · rw [executePrep_write sql param rc pg h]
  · rw [execute_sql_boundParam, executePrep_write sql param rc pg h]
  · intro v hv
    unfold execute_sql at hv
    cases hrun : store.run (executePrep sql param rc pg).sql
        (executePrep sql param rc pg).param with
    | error e => rw [hrun] at hv; exact absurd hv (by simp)
    | ok rows =>
        rw [hrun] at hv
        simp only [executePrep_write sql param rc pg h] at hv
        simpa using hv.symm

/-- Witness for C5 at the write statement `"insert into scores values (1)"`. -/
theorem write_statement_passthrough_witness :
    hasReturn "insert into scores values (1)" = false ∧
    ((executePrep "insert into scores values (1)" [] 5 2).sql
        = "insert into scores values (1)" ∧
    (executePrep "insert into scores values (1)" [] 5 2).param = [] ∧
    (execute_sql okStore "insert into scores values (1)" [] 5 2).boundParam = [] ∧
    (∀ v, (execute_sql okStore "insert into scores values (1)" [] 5 2).result
        = Except.ok v → v = none)) :=
  ⟨by decide,
   write_statement_passthrough okStore "insert into scores values (1)" [] 5 2 (by decide)⟩

/-- C9: on a read execution, caller-supplied `offset` and `row_count`
entries in the parameter mapping are overwritten by the executor's
computed pagination values in the mapping actually bound. -/
theorem reserved_param_names_overwritten (store : Store) (sql : String)
    (param : Dict) (rc pg : Int) (v0 v1 : Val) (h : hasReturn sql = true) :
    dictGet (execute_sql store sql
        (dictSet (dictSet param "offset" v0) "row_count" v1) rc pg).boundParam
        "offset" = some (Val.int (pageOffset pg rc)) ∧
    dictGet (execute_sql store sql
        (dictSet (dictSet param "offset" v0) "row_count" v1) rc pg).boundParam
        "row_count" = some (Val.int (clampRowCount rc)) := by
  constructor
  · rw [execute_sql_boundParam]
    exact executePrep_read_offset sql _ rc pg h
  · rw [execute_sql_boundParam]
    exact executePrep_read_row_count sql _ rc pg h

/-- Witness for C9: a caller binds `offset := "mine"` and
`row_count := 7`; the executed query sees the computed `offset = 5` and
`row_count = 5` instead. -/
theorem reserved_param_names_overwritten_witness :
    hasReturn "select * from scores" = true ∧
    (dictGet (execute_sql okStore "select * from scores"
        (dictSet (dictSet [] "offset" (Val.str "mine")) "row_count" (Val.int 7))
        5 2).boundParam "offset" = some (Val.int (pageOffset 2 5)) ∧
    dictGet (execute_sql okStore "select * from scores"
        (dictSet (dictSet [] "offset" (Val.str "mine")) "row_count" (Val.int 7))
        5 2).boundParam "row_count" = some (Val.int (clampRowCount 5))) :=
  ⟨by decide,
   reserved_param_names_overwritten okStore "select * from scores" []
     5 2 (Val.str "mine") (Val.int 7) (by decide)⟩

/-- C10: a read call that omits `param` merges the pagination keys into the
shared default mapping (the default `param={}` is evaluated once, and the
merge mutates it in place rather than copying), so the keys persist in the
module state; a later call that also omits `param` — even a write call,
which never touches the mapping itself — binds a mapping that still holds
the previous call's `offset` and `row_count` entries. -/
theorem default_param_shared_across_calls (store : Store) (sql sql' : String)
    (rc pg rc' pg' : Int) (h : hasReturn sql = true)
    (h' : hasReturn sql' = false) :
    (execute_sql_call initState store sql none rc pg).2.defaultParam
      = (execute_sql_call initState store sql none rc pg).1.boundParam ∧
    dictGet (execute_sql_call initState store sql none rc pg).2.defaultParam
      "offset" = some (Val.int (pageOffset pg rc)) ∧
    dictGet (execute_sql_call initState store sql none rc pg).2.defaultParam
      "row_count" = some (Val.int (clampRowCount rc)) ∧
    dictGet (execute_sql_call (execute_sql_call initState store sql none rc pg).2
        store sql' none rc' pg').1.boundParam "offset"
      = some (Val.int (pageOffset pg rc)) := by
  have hbound : (execute_sql_call initState store sql none rc pg).1.boundParam
      = (executePrep sql [] rc pg).param := by
    unfold execute_sql_call initState
    simp only [Option.getD, Option.isSome]
    exact execute_sql_boundParam store sql [] rc pg
  have hstate : (execute_sql_call initState store sql none rc pg).2.defaultParam
      = (executePrep sql [] rc pg).param := by
    unfold execute_sql_call initState
    simp only [Option.getD, Option.isSome]
    exact execute_sql_boundParam store sql [] rc pg
  refine ⟨hstate.trans hbound.symm, ?_, ?_, ?_⟩
  · rw [hstate]
    exact executePrep_read_offset sql [] rc pg h
  · rw [hstate]
    exact executePrep_read_row_count sql [] rc pg h
  · have h2 : (execute_sql_call (execute_sql_call initState store sql none rc pg).2
        store sql' none rc' pg').1.boundParam
        = (executePrep sql' (execute_sql_call initState store sql none rc pg).2.defaultParam
            rc' pg').param := by
      unfold execute_sql_call
      simp only [Option.getD, Option.isSome]
      exact execute_sql_boundParam store sql' _ rc' pg'
    rw [h2, executePrep_write sql' _ rc' pg' h', hstate]
    exact executePrep_read_offset sql [] rc pg h

/-- Witness for C10: a defaulted `"select 1"` call with rowLimit 7 and
page 3 leaves `offset = 14` in the shared default mapping, and a following
defaulted `"insert into t values (1)"` call binds it. -/
theorem default_param_shared_across_calls_witness :
    hasReturn "select 1" = true ∧
    hasReturn "insert into t values (1)" = false ∧
    ((execute_sql_call initState okStore "select 1" none 7 3).2.defaultParam
      = (execute_sql_call initState okStore "select 1" none 7 3).1.boundParam ∧
    dictGet (execute_sql_call initState okStore "select 1" none 7 3).2.defaultParam
      "offset" = some (Val.int (pageOffset 3 7)) ∧
    dictGet (execute_sql_call initState okStore "select 1" none 7 3).2.defaultParam
      "row_count" = some (Val.int (clampRowCount 7)) ∧
    dictGet (execute_sql_call (execute_sql_call initState okStore "select 1" none 7 3).2
        okStore "insert into t values (1)" none 9 9).1.boundParam "offset"
      = some (Val.int (pageOffset 3 7))) :=
  ⟨by decide, by decide,
   default_param_shared_across_calls okStore "select 1" "insert into t values (1)"
     7 3 9 9 (by decide) (by decide)⟩

/-- A store whose execution always fails with a driver-level error, e.g.
malformed SQL. -/
def failingStore : Store := ⟨fun _ _ => Except.error "syntax error"⟩

/-- Counterexample to C6: when the store-level execution fails, the
`await engine.dispose()` line — which stands after the `async with`
blocks, not in a `finally` — is skipped, so the pooled engine is not torn
down on that exit path. -/
theorem dispose_skipped_on_error :
    Ev.dispose ∉ (execute_sql failingStore "select 1" [] 100000 1).events ∧
    Ev.connClose ∈ (execute_sql failingStore "select 1" [] 100000 1).events := by
  decide

/-- C6 as amended: on every exit path, success or failure, the scoped
session and connection are released before control returns (the
`async with` exit handlers run), but the pooled engine is fully disposed
only when execution succeeds; on a store-level execution error the dispose
step is skipped. -/
theorem connection_released_dispose_on_success (store : Store) (sql : String)
    (param : Dict) (rc pg : Int) :
    Ev.connClose ∈ (execute_sql store sql param rc pg).events ∧
    Ev.sessionClose ∈ (execute_sql store sql param rc pg).events ∧
    (Ev.dispose ∈ (execute_sql store sql param rc pg).events ↔
      ∃ v, (execute_sql store sql param rc pg).result = Except.ok v) := by
  unfold execute_sql
  cases store.run (executePrep sql param rc pg).sql (executePrep sql param rc pg).param with
  | error e => simp
  | ok rows => simp

/-! ## Verifier lemmas -/

/-- An unknown permission name resolves through `permissions.get(_, 0)` to
the default-deny sentinel `0`. -/
theorem permissionsGet_not_registered (tok : Token) (p : String)
    (h : p ∉ registryKeys) :
    permissionsGet tok p = 0 := by
  simp only [registryKeys, List.mem_cons, List.not_mem_nil, or_false, not_or] at h
  obtain ⟨h1, h2, h3, h4⟩ := h
  unfold permissionsGet permissions
  rw [List.find?_cons_of_neg _ (by simpa using Ne.symm h1)]
  rw [List.find?_cons_of_neg _ (by simpa using Ne.symm h2)]
  rw [List.find?_cons_of_neg _ (by simpa using Ne.symm h3)]
  rw [List.find?_cons_of_neg _ (by simpa using Ne.symm h4)]
  rfl

/-- On an unknown permission name, `verify_token` denies with the standard
`PermissionDenied` error whatever the token row holds. -/
theorem verify_token_not_registered (db : List Token) (t p : String)
    (h : p ∉ registryKeys) :
    verify_token db t p = Except.error (permDenied p) := by
  unfold verify_token
  cases db.filter (fun r => r.token == t) with
  | nil => rfl
  | cons tok rest =>
      dsimp only
      rw [if_neg (by rw [permissionsGet_not_registered tok p h]; omega)]

/-- On every input, `verify_token` either succeeds with `true` or fails
with the `PermissionDenied` error carrying the requested name. -/
theorem verify_token_cases (db : List Token) (t p : String) :
    verify_token db t p = Except.ok true ∨
    verify_token db t p = Except.error (permDenied p) := by
  unfold verify_token
  cases db.filter (fun r => r.token == t) with
  | nil => right; rfl
  | cons tok rest =>
      dsimp only
      by_cases hperm : permissionsGet tok p = 1
      · left; rw [if_pos hperm]
      · right; rw [if_neg hperm]

/-! ## Claims about the Token Verifier -/

/-- C1: under the data-model invariant that at most one row exists per
token value, `verify_token` returns `true` exactly when a row with that
token exists and the registry resolves the requested name to a flag equal
to `1` on it; in every other combination it fails with the
`PermissionDenied` error (HTTP 404, detail `insufficient permissions:`
followed by the requested name). -/
theorem verify_token_iff_granted (db : List Token) (t p : String)
    (huniq : (db.map Token.token).Nodup) :
    (verify_token db t p = Except.ok true ↔
      ∃ tok ∈ db, tok.token = t ∧ permissionsGet tok p = 1) ∧
    (verify_token db t p = Except.ok true ∨
      verify_token db t p = Except.error (permDenied p)) := by
  refine ⟨⟨?_, ?_⟩, verify_token_cases db t p⟩
  · intro h
    unfold verify_token at h
    cases hrows : db.filter (fun r => r.token == t) with
    | nil =>
        rw [hrows] at h
        dsimp only at h
        exact absurd h (by simp)
    | cons tok rest =>
        rw [hrows] at h
        dsimp only at h
        by_cases hperm : permissionsGet tok p = 1
        · have htok : tok ∈ db.filter (fun r => r.token == t) := by
            rw [hrows]; exact List.mem_cons_self tok rest
          have hmem := List.mem_filter.mp htok
          have htokeq : tok.token = t := by simpa using hmem.2
          exact ⟨tok, hmem.1, htokeq, hperm⟩
        · rw [if_neg hperm] at h
          exact absurd h (by simp)
  · rintro ⟨tok, hmem, htok, hperm⟩
    have hbeq : (tok.token == t) = true := by simpa using htok
    have hfil : tok ∈ db.filter (fun r => r.token == t) :=
      List.mem_filter.mpr ⟨hmem, hbeq⟩
    unfold verify_token
    cases hrows : db.filter (fun r => r.token == t) with
    | nil => rw [hrows] at hfil; exact absurd hfil (by simp)
    | cons tok0 rest =>
        have htok0 : tok0 ∈ db.filter (fun r => r.token == t) := by
          rw [hrows]; exact List.mem_cons_self tok0 rest
        have hmem0 := List.mem_filter.mp htok0
        have htok0eq : tok0.token = t := by simpa using hmem0.2
        have heq : tok = tok0 :=
          List.inj_on_of_nodup_map huniq hmem hmem0.1 (htok.trans htok0eq.symm)
        dsimp only
        rw [if_pos (heq ▸ hperm)]

/-- Witness for C1: the single-row database `{token "abc", verify_ban 1}`
grants `ban` for `"abc"`. -/
theorem verify_token_iff_granted_witness :
    (([⟨"abc", 0, 1, 0, 0⟩] : List Token).map Token.token).Nodup ∧
    ((verify_token [⟨"abc", 0, 1, 0, 0⟩] "abc" "ban" = Except.ok true ↔
      ∃ tok ∈ ([⟨"abc", 0, 1, 0, 0⟩] : List Token), tok.token = "abc" ∧
        permissionsGet tok "ban" = 1) ∧
    (verify_token [⟨"abc", 0, 1, 0, 0⟩] "abc" "ban" = Except.ok true ∨
      verify_token [⟨"abc", 0, 1, 0, 0⟩] "abc" "ban"
        = Except.error (permDenied "ban"))) :=
  ⟨by decide, verify_token_iff_granted [⟨"abc", 0, 1, 0, 0⟩] "abc" "ban" (by decide)⟩

/-- C2: for every permission name outside the registry's four entries,
`verify_token` fails with the same `PermissionDenied` error a falsy flag
produces, for every database and token — the default-deny `get` never
raises an absent-key fault. -/
theorem verify_token_unknown_name_denies (db : List Token) (t p : String)
    (h : p ∉ registryKeys) :
    verify_token db t p = Except.error (permDenied p) :=
  verify_token_not_registered db t p h

/-- Witness for C2: the name `"verify_ban"` (the attribute name, not the
registry key `"ban"`) is denied even for a token whose every flag is 1. -/
theorem verify_token_unknown_name_denies_witness :
    ("verify_ban" ∉ registryKeys) ∧
    verify_token [⟨"abc", 1, 1, 1, 1⟩] "abc" "verify_ban"
      = Except.error (permDenied "verify_ban") :=
  ⟨by decide,
   verify_token_unknown_name_denies [⟨"abc", 1, 1, 1, 1⟩] "abc" "verify_ban" (by decide)⟩

/-- C3: every request through the v2 highscore router's token dependency is
rejected with HTTP 403, for every database and token value: the call site
passes keyword arguments `verification` and `route` that
`verify_token(token, verifcation)` does not accept, and the permission
name it intends, `"verify_ban"`, is not a registry key, so even a
correctly bound call could never return `true`. -/
theorem highscore_verification_always_403 (db : List Token) (token : String) :
    verify_and_log_token db token
      = Except.error { status_code := 403, detail := "Token verification failed" } ∧
    highscore_call_binds = false ∧
    "verify_ban" ∉ registryKeys ∧
    verify_token db token "verify_ban" = Except.error (permDenied "verify_ban") := by
  refine ⟨?_, by decide, by decide, ?_⟩
  · unfold verify_and_log_token
    rw [if_neg (by decide)]
  · exact verify_token_not_registered db token "verify_ban" (by decide)

/-! ## Materialization lemmas -/

theorem mapM_except_ok {α β γ : Type} (f : α → Except γ β) (g : α → β)
    (l : List α) (h : ∀ a ∈ l, f a = Except.ok (g a)) :
    l.mapM f = Except.ok (l.map g) := by
  induction l with
  | nil => rfl
  | cons a t ih =>
      rw [List.mapM_cons, h a (List.mem_cons_self a t),
        ih (fun b hb => h b (List.mem_cons_of_mem a hb))]
      rfl

/-! ## Claims about result materialization -/

/-- Counterexample to C7: `sql_cursor.rows2tuple` on the zero-row,
zero-column result does not fail — `namedtuple('Record', ())` is a legal
(fieldless) record type and the comprehension over no rows yields the
empty list, so the call returns `[]` instead of raising. -/
theorem sql_cursor_rows2tuple_empty_ok :
    sql_cursor_rows2tuple { cols := [], rows := [] } = Except.ok [] := rfl

/-- C7 as amended: requesting fixed-record materialization on an empty
result fails with an `IndexError`-equivalent (propagated, not swallowed)
in `sqlalchemy_result.rows2tuple`, which reads `self.rows[0]` before
building the record type; `sql_cursor.rows2tuple` on a zero-row,
zero-column result instead returns the empty record list without error. -/
theorem rows2tuple_empty_result_behaviour :
    sqlalchemy_result_rows2tuple [] = Except.error PyErr.indexError ∧
    sql_cursor_rows2tuple { cols := [], rows := [] } = Except.ok [] :=
  ⟨rfl, rfl⟩

/-- Counterexample to C8: the unaliased aggregate label `count(*)` from a
statement like `select count(*) from t` is a distinct column name that is
not a valid Python identifier, so `namedtuple` raises `ValueError` —
the mapping materialization of that result yields its value while the
record materialization fails, so the two forms do not both yield a value
for every read result set. -/
theorem rows2tuple_invalid_label_fails :
    sql_cursor_rows2dict { cols := ["count(*)"], rows := [[Val.int 3]] }
      = [[("count(*)", Val.int 3)]] ∧
    sql_cursor_rows2tuple { cols := ["count(*)"], rows := [[Val.int 3]] }
      = Except.error PyErr.valueError := by
  refine ⟨rfl, ?_⟩
  unfold sql_cursor_rows2tuple namedtupleFields
  rw [if_neg (by intro h; exact absurd (h.1 "count(*)" (by decide)) (by decide))]
  rfl

/-- C8 as amended: on a result set whose column labels are distinct field
names `namedtuple` accepts (valid non-keyword identifiers without a
leading underscore) and whose rows all carry one cell per column, the
record materialization succeeds and the records agree with the mapping
materialization row by row: looking up any column name in a mapping row
and in the corresponding record yields the same value (here the two are
the very same association of columns to cells); on a distinct but invalid
label such as `count(*)` the record form instead fails with `ValueError`
while the mapping form still yields the values. -/
theorem rows2dict_rows2tuple_agree (rs : ResultSet)
    (hvalid : ∀ c ∈ rs.cols, isValidFieldName c = true)
    (hnodup : rs.cols.Nodup)
    (harity : ∀ r ∈ rs.rows, r.length = rs.cols.length) :
    ∃ recs, sql_cursor_rows2tuple rs = Except.ok recs ∧
      List.Forall₂ (fun drow rrow => ∀ c : String,
          (drow.find? (fun q => q.1 == c)).map Prod.snd
            = (rrow.find? (fun q => q.1 == c)).map Prod.snd)
        (sql_cursor_rows2dict rs) recs := by
  refine ⟨sql_cursor_rows2dict rs, ?_, ?_⟩
  · unfold sql_cursor_rows2tuple namedtupleFields
    rw [if_pos ⟨hvalid, hnodup⟩]
    show rs.rows.mapM (mkRecord rs.cols) = Except.ok (sql_cursor_rows2dict rs)
    unfold sql_cursor_rows2dict
    apply mapM_except_ok
    intro r hr
    unfold mkRecord
    rw [if_pos (harity r hr)]
  · rw [List.forall₂_same]
    intro x _ c
    rfl

/-- A concrete two-column, two-row result set. -/
def sampleResultSet : ResultSet :=
  { cols := ["a", "b"]
    rows := [[Val.int 1, Val.str "x"], [Val.int 2, Val.str "y"]] }

/-- Witness for C8 at a two-column, two-row result set with valid labels. -/
theorem rows2dict_rows2tuple_agree_witness :
    ((∀ c ∈ sampleResultSet.cols, isValidFieldName c = true) ∧
      sampleResultSet.cols.Nodup ∧
      ∀ r ∈ sampleResultSet.rows, r.length = sampleResultSet.cols.length) ∧
    (∃ recs, sql_cursor_rows2tuple sampleResultSet = Except.ok recs ∧
      List.Forall₂ (fun drow rrow => ∀ c : String,
          (drow.find? (fun q => q.1 == c)).map Prod.snd
            = (rrow.find? (fun q => q.1 == c)).map Prod.snd)
        (sql_cursor_rows2dict sampleResultSet) recs) :=
  ⟨⟨by decide, by decide, by decide⟩,
   rows2dict_rows2tuple_agree sampleResultSet (by decide) (by decide) (by decide)⟩
